import Mathlib

/-!
Shallow embedding of the travel-blog content-management backend:
the Mongoose `Blog` schema with its pre-save hook, the blog CRUD and
bulk routes, and the analytics dashboard trend aggregation.
-/

set_option maxRecDepth 100000

namespace TravelBlog

/-- The whitespace class of the JavaScript regex `\s`. -/
def isJsSpace (c : Char) : Bool :=
  c = ' ' || c = '\t' || c = '\n' || c = '\r' || c.val = 11 || c.val = 12 ||
  c.val = 0xa0 || c.val = 0x1680 || (0x2000 ≤ c.val && c.val ≤ 0x200a) ||
  c.val = 0x2028 || c.val = 0x2029 || c.val = 0x202f || c.val = 0x205f ||
  c.val = 0x3000 || c.val = 0xfeff

/-- Characters kept by `.replace(/[^a-zA-Z0-9\s]/g, '')`. -/
def isSlugKeep (c : Char) : Bool :=
  ('a' ≤ c && c ≤ 'z') || ('A' ≤ c && c ≤ 'Z') || ('0' ≤ c && c ≤ '9') || isJsSpace c

/-- `.replace(/\s+/g, '-')`: each maximal whitespace run becomes a single hyphen. -/
def collapseWs : List Char → List Char
  | [] => []
  | [c] => [if isJsSpace c then '-' else c]
  | c₁ :: c₂ :: rest =>
    if isJsSpace c₁ && isJsSpace c₂ then collapseWs (c₂ :: rest)
    else (if isJsSpace c₁ then '-' else c₁) :: collapseWs (c₂ :: rest)

/-- Slug generation from the blog routes:
`title.toLowerCase().replace(/[^a-zA-Z0-9\s]/g, '').replace(/\s+/g, '-').substring(0, 50)`. -/
def slugify (title : String) : String :=
  ⟨(collapseWs ((title.data.map Char.toLower).filter isSlugKeep)).take 50⟩

/-- The output alphabet claimed for slugs: lowercase letters, digits, hyphen. -/
def isSlugOutChar (c : Char) : Bool :=
  ('a' ≤ c && c ≤ 'z') || ('0' ≤ c && c ≤ '9') || c = '-'

/-- Adjacent characters are never both hyphens. -/
def NoAdjHyphens (L : List Char) : Prop :=
  List.Chain' (fun a b => ¬ (a = '-' ∧ b = '-')) L

/-- Error taxonomy of the route handlers (HTTP status + message families). -/
inductive Err where
  | validationFailed
  | duplicateSlug
  | notFound
  | forbidden
  | invalidAction
  deriving DecidableEq, Repr

/-- The `seo` sub-document of the blog schema. -/
structure Seo where
  metaTitle : Option String
  metaDescription : Option String
  keywords : Option (List String)
  canonicalUrl : Option String
  deriving DecidableEq, Repr

/-- A stored blog document (the fields of `blogSchema` the routes operate on;
engagement counters are flattened out of `stats`). -/
structure Blog where
  id : String
  title : String
  slug : String
  content : String
  excerpt : String
  category : String
  tags : List String
  seo : Seo
  status : String
  publishedAt : Option Nat
  scheduledAt : Option Nat
  views : Nat
  likes : Nat
  shares : Nat
  comments : Nat
  readingTime : Nat
  featured : Bool
  author : String
  createdAt : Nat
  updatedAt : Nat
  deriving DecidableEq, Repr

/-- A stored user document (the fields the blog routes touch). -/
structure User where
  id : String
  role : String
  postsCount : Int
  deriving DecidableEq, Repr

/-- The document store: the `blogs` and `users` collections. -/
structure Store where
  blogs : List Blog
  users : List User
  deriving DecidableEq, Repr

deriving instance DecidableEq for Except

/-- JavaScript `str.split(' ')`: chunks between single-space separators,
keeping the empty chunks produced by consecutive, leading or trailing
spaces. -/
def splitChunks : List Char → List (List Char)
  | [] => [[]]
  | c :: rest =>
    match splitChunks rest with
    | [] => [[]]
    | chunk :: more =>
      if c = ' ' then [] :: chunk :: more else (c :: chunk) :: more

/-- `this.content.split(' ').length` from the pre-save hook. -/
def wordChunks (content : String) : Nat :=
  (splitChunks content.data).length

/-- `Math.ceil(wordCount / wordsPerMinute)` with `wordsPerMinute = 200`. -/
def computeReadingTime (content : String) : Nat :=
  (wordChunks content + 199) / 200

/-- Modelled from the spec: the number of words of a body, i.e. the
space-separated chunks that are nonempty.  This is the notion of word
count the spec speaks about; the hook counts chunks instead. -/
def specWordCount (content : String) : Nat :=
  ((splitChunks content.data).filter (fun w => w ≠ [])).length

/-- `blogSchema.pre('save')`: recompute `readingTime` when the content path
was modified, and refresh `updatedAt`. -/
def preSaveHook (contentModified : Bool) (now : Nat) (b : Blog) : Blog :=
  let b' := if contentModified then { b with readingTime := computeReadingTime b.content } else b
  { b' with updatedAt := now }

/-- `Blog.findById` -/
def findBlogById (st : Store) (id : String) : Option Blog :=
  st.blogs.find? (fun b => b.id == id)

def isHexChar (c : Char) : Bool :=
  ('0' ≤ c && c ≤ '9') || ('a' ≤ c && c ≤ 'f') || ('A' ≤ c && c ≤ 'F')

/-- `identifier.match(/^[0-9a-fA-F]{24}$/)` -/
def isObjectIdLike (s : String) : Bool :=
  s.length == 24 && s.data.all isHexChar

/-- The query built by GET `/blogs/:identifier`: by `_id` for a 24-hex-digit
identifier, by `slug` otherwise. -/
def blogMatchesIdent (ident : String) (b : Blog) : Bool :=
  if isObjectIdLike ident then b.id == ident else b.slug == ident

/-- `doc.save()` on an existing document: replace the stored blog carrying
this document's id. -/
def saveExisting : List Blog → Blog → List Blog
  | [], _ => []
  | b :: rest, b' => if b.id == b'.id then b' :: rest else b :: saveExisting rest b'

def updateFirstUser (uid : String) (f : User → User) : List User → List User
  | [] => []
  | u :: rest => if u.id == uid then f u :: rest else u :: updateFirstUser uid f rest

/-- `User.findByIdAndUpdate(uid, { $inc: { 'stats.postsCount': d } })` -/
def incPostsCount (uid : String) (d : Int) (users : List User) : List User :=
  updateFirstUser uid (fun u => { u with postsCount := u.postsCount + d }) users

/-- JS truthiness of an optional string request field (absent or empty is falsy). -/
def truthy : Option String → Bool
  | none => false
  | some s => s != ""

/-- GET `/blogs/:identifier`: resolve by id or slug, bump the view counter,
persist through `save()` (so the pre-save hook runs with content unmodified). -/
def getByIdentifier (ident : String) (now : Nat) (st : Store) : Store × Except Err Blog :=
  match st.blogs.find? (blogMatchesIdent ident) with
  | none => (st, Except.error Err.notFound)
  | some b =>
    let b' := preSaveHook false now { b with views := b.views + 1 }
    ({ st with blogs := saveExisting st.blogs b' }, Except.ok b')

/-- The body of POST `/blogs` (destructuring defaults applied by the caller model). -/
structure CreateReq where
  title : String
  content : String
  excerpt : String
  category : String
  tags : List String
  seo : Seo
  status : Option String
  featured : Option Bool
  scheduledAt : Option Nat
  deriving DecidableEq, Repr

def categories : List String :=
  ["Adventure", "Culture", "Food", "Nature", "City", "Beach", "Mountain", "Historical"]

/-- The express-validator checks on POST `/blogs`. -/
def validCreate (r : CreateReq) : Bool :=
  r.title != "" && r.content != "" && r.excerpt != "" && categories.contains r.category

/-- The document `new Blog({...})` built by POST `/blogs` (before `save()`). -/
def newBlogDoc (r : CreateReq) (u : User) (newId : String) (now : Nat) : Blog :=
  { id := newId, title := r.title, slug := slugify r.title, content := r.content,
    excerpt := r.excerpt, category := r.category, tags := r.tags, seo := r.seo,
    status := r.status.getD "draft",
    publishedAt := if r.status.getD "draft" == "published" then some now else none,
    scheduledAt := r.scheduledAt,
    views := 0, likes := 0, shares := 0, comments := 0,
    readingTime := 0, featured := r.featured.getD false,
    author := u.id, createdAt := now, updatedAt := now }

/-- POST `/blogs`: validate, derive the slug, reject a duplicate slug,
persist the new document (running the pre-save hook, which computes the
reading time since every path of a new document counts as modified), and
increment the author's post counter. -/
def createBlog (r : CreateReq) (u : User) (newId : String) (now : Nat) (st : Store) :
    Store × Except Err Blog :=
  if !validCreate r then (st, Except.error Err.validationFailed)
  else if st.blogs.any (fun b => b.slug == slugify r.title) then
    (st, Except.error Err.duplicateSlug)
  else
    let b' := preSaveHook true now (newBlogDoc r u newId now)
    ({ blogs := st.blogs ++ [b'], users := incPostsCount u.id 1 st.users }, Except.ok b')

/-- An `seo` object supplied in an update request: each key optionally present. -/
structure SeoReq where
  metaTitle : Option String
  metaDescription : Option String
  keywords : Option (List String)
  canonicalUrl : Option String
  deriving DecidableEq, Repr

/-- `blog.seo = { ...blog.seo, ...seo }`: a shallow merge, keys present in the
request win, absent keys keep the stored value. -/
def mergeSeo (old : Seo) (r : SeoReq) : Seo :=
  { metaTitle := match r.metaTitle with | some v => some v | none => old.metaTitle,
    metaDescription := match r.metaDescription with | some v => some v | none => old.metaDescription,
    keywords := match r.keywords with | some v => some v | none => old.keywords,
    canonicalUrl := match r.canonicalUrl with | some v => some v | none => old.canonicalUrl }

/-- The body of PUT `/blogs/:id`: every field optional. -/
structure UpdateReq where
  title : Option String
  content : Option String
  excerpt : Option String
  category : Option String
  tags : Option (List String)
  seo : Option SeoReq
  featured : Option Bool
  status : Option String
  scheduledAt : Option Nat
  deriving DecidableEq, Repr

/-- `if (field) blog.field = field` for a string request field. -/
def setStr (v : Option String) (old : String) : String :=
  match v with
  | some s => if s == "" then old else s
  | none => old

/-- `blog.author.toString() !== req.user._id.toString() && req.user.role !== 'admin'` -/
def ownershipDenied (b : Blog) (u : User) : Bool :=
  b.author != u.id && u.role != "admin"

/-- `title && title !== blog.title` -/
def titleChangedB (r : UpdateReq) (b : Blog) : Bool :=
  truthy r.title && (r.title.getD "" != b.title)

/-- The slug an update will store: re-derived on title change, else kept. -/
def newSlugFor (r : UpdateReq) (b : Blog) : String :=
  if titleChangedB r b then slugify (r.title.getD "") else b.slug

/-- `Blog.findOne({ slug: newSlug, _id: { $ne: blog._id } })` finds something
(only checked when the title changed). -/
def slugConflict (r : UpdateReq) (b : Blog) (st : Store) : Bool :=
  titleChangedB r b && st.blogs.any (fun o => o.slug == newSlugFor r b && o.id != b.id)

/-- Whether the update marks the `content` path modified (Mongoose does not
mark a path set to an identical value). -/
def contentChangedB (r : UpdateReq) (b : Blog) : Bool :=
  truthy r.content && (r.content.getD "" != b.content)

/-- The conditional field assignments of PUT `/blogs/:id` (each applied only
when the request field is truthy / defined, the SEO block shallow-merged,
`publishedAt` set only on a first transition into `published`). -/
def applyUpdateFields (r : UpdateReq) (b : Blog) (now : Nat) : Blog :=
  { b with
    slug := newSlugFor r b,
    title := setStr r.title b.title,
    content := setStr r.content b.content,
    excerpt := setStr r.excerpt b.excerpt,
    category := setStr r.category b.category,
    tags := r.tags.getD b.tags,
    seo := match r.seo with | some s => mergeSeo b.seo s | none => b.seo,
    status := setStr r.status b.status,
    publishedAt :=
      if truthy r.status && (r.status.getD "" == "published") && (b.publishedAt == none)
      then some now else b.publishedAt,
    featured := r.featured.getD b.featured,
    scheduledAt := match r.scheduledAt with | some t => some t | none => b.scheduledAt }

/-- PUT `/blogs/:id`: ownership check, slug re-derivation on title change with
a uniqueness check excluding the record itself, conditional field updates,
then `save()` (pre-save hook). -/
def updateBlog (r : UpdateReq) (u : User) (id : String) (now : Nat) (st : Store) :
    Store × Except Err Blog :=
  match findBlogById st id with
  | none => (st, Except.error Err.notFound)
  | some b =>
    if ownershipDenied b u then (st, Except.error Err.forbidden)
    else if slugConflict r b st then (st, Except.error Err.duplicateSlug)
    else
      let b' := preSaveHook (contentChangedB r b) now (applyUpdateFields r b now)
      ({ st with blogs := saveExisting st.blogs b' }, Except.ok b')

/-- DELETE `/blogs/:id`: ownership check, `findByIdAndDelete`, then decrement
the author's post counter (no floor). -/
def deleteBlog (id : String) (u : User) (st : Store) : Store × Except Err Unit :=
  match findBlogById st id with
  | none => (st, Except.error Err.notFound)
  | some b =>
    if ownershipDenied b u then (st, Except.error Err.forbidden)
    else
      ({ blogs := st.blogs.eraseP (fun x => x.id == id),
         users := incPostsCount b.author (-1) st.users }, Except.ok ())

def bulkActions : List String := ["delete", "publish", "draft", "feature", "unfeature"]

/-- `result.modifiedCount || result.deletedCount` from the bulk response
(`none` models an absent/undefined field; `0` is falsy in JS). -/
def jsOrCount (modified deleted : Option Nat) : Option Nat :=
  match modified with
  | some n => if n == 0 then deleted else some n
  | none => deleted

/-- Whether the bulk update document actually changes this stored blog
(MongoDB's `modifiedCount` counts only documents that changed). -/
def bulkUpdateChanges (action : String) (now : Nat) (b : Blog) : Bool :=
  match action with
  | "publish" => !(b.status == "published" && b.publishedAt == some now)
  | "draft" => !(b.status == "draft")
  | "feature" => !b.featured
  | "unfeature" => b.featured
  | _ => false

/-- The update document each recognized non-delete bulk action applies. -/
def applyBulk (action : String) (now : Nat) (b : Blog) : Blog :=
  match action with
  | "publish" => { b with status := "published", publishedAt := some now }
  | "draft" => { b with status := "draft" }
  | "feature" => { b with featured := true }
  | "unfeature" => { b with featured := false }
  | _ => b

/-- POST `/blogs/bulk` (behind adminAuth): `switch (action)` over
`deleteMany`/`updateMany` on `{ _id: { $in: blogIds } }`; the response count
is `result.modifiedCount || result.deletedCount`. -/
def bulkAction (action : String) (blogIds : List String) (now : Nat) (st : Store) :
    Store × Except Err (Option Nat) :=
  if action == "delete" then
    ({ st with blogs := st.blogs.filter (fun b => !blogIds.contains b.id) },
      Except.ok (jsOrCount none (some (st.blogs.countP (fun b => blogIds.contains b.id)))))
  else if bulkActions.contains action then
    let modified := st.blogs.countP (fun b => blogIds.contains b.id && bulkUpdateChanges action now b)
    ({ st with blogs := st.blogs.map (fun b => if blogIds.contains b.id then applyBulk action now b else b) },
      Except.ok (jsOrCount (some modified) none))
  else (st, Except.error Err.invalidAction)

/-- Civil (year, month, day) from days since the Unix epoch, proleptic
Gregorian in UTC — what MongoDB's `$year`/`$month`/`$dayOfMonth` compute on
a `Date`. -/
def civilFromDays (z : Nat) : Nat × Nat × Nat :=
  let z' := z + 719468
  let era := z' / 146097
  let doe := z' % 146097
  let yoe := (doe - doe / 1460 + doe / 36524 - doe / 146096) / 365
  let y := yoe + era * 400
  let doy := doe - (365 * yoe + yoe / 4 - yoe / 100)
  let mp := (5 * doy + 2) / 153
  let d := doy - (153 * mp + 2) / 5 + 1
  let m := if mp < 10 then mp + 3 else mp - 9
  (if m ≤ 2 then y + 1 else y, m, d)

/-- The `$group` key of the dashboard trend: calendar day of `createdAt` (ms). -/
def dayKeyOf (ms : Nat) : Nat × Nat × Nat :=
  civilFromDays (ms / 86400000)

/-- `new Date(now.getTime() - 30 * 24 * 60 * 60 * 1000)` -/
def trendCutoff (now : Nat) : Nat :=
  now - 30 * 24 * 60 * 60 * 1000

/-- Ascending order on `(year, month, day)` keys — the pipeline's
`$sort: { '_id.year': 1, '_id.month': 1, '_id.day': 1 }`. -/
def dayLE (a b : Nat × Nat × Nat) : Prop :=
  a.1 < b.1 ∨ (a.1 = b.1 ∧ (a.2.1 < b.2.1 ∨ (a.2.1 = b.2.1 ∧ a.2.2 ≤ b.2.2)))

instance : DecidableRel dayLE := fun a b => by
  unfold dayLE
  exact inferInstance

/-- `$match: { createdAt: { $gte: thirtyDaysAgo } }` -/
def trendWindow (blogs : List Blog) (now : Nat) : List Blog :=
  blogs.filter (fun b => trendCutoff now ≤ b.createdAt)

/-- The distinct `$group` keys occurring in the window. -/
def trendKeys (blogs : List Blog) (now : Nat) : List (Nat × Nat × Nat) :=
  ((trendWindow blogs now).map (fun b => dayKeyOf b.createdAt)).dedup

/-- `$group: { _id: {year, month, day}, count: { $sum: 1 } }` -/
def trendBuckets (blogs : List Blog) (now : Nat) : List ((Nat × Nat × Nat) × Nat) :=
  (trendKeys blogs now).map (fun k =>
    (k, ((trendWindow blogs now).filter (fun b => dayKeyOf b.createdAt == k)).length))

/-- The `monthlyTrend` aggregation of GET `/analytics/dashboard`:
match the trailing 30 days, group by calendar day with a count,
sort ascending by year, month, day. -/
def monthlyTrend (blogs : List Blog) (now : Nat) : List ((Nat × Nat × Nat) × Nat) :=
  (trendBuckets blogs now).insertionSort (fun x y => dayLE x.1 y.1)

/-- An empty SEO sub-document. -/
def seoNone : Seo :=
  { metaTitle := none, metaDescription := none, keywords := none, canonicalUrl := none }

/-- A published sample blog (its `publishedAt` already set to 5). -/
def blogA : Blog :=
  { id := "aaaaaaaaaaaaaaaaaaaaaaaa", title := "Hello", slug := "hello",
    content := "word", excerpt := "e", category := "Adventure", tags := [],
    seo := seoNone, status := "published", publishedAt := some 5, scheduledAt := none,
    views := 3, likes := 0, shares := 0, comments := 0, readingTime := 1,
    featured := false, author := "u1", createdAt := 0, updatedAt := 0 }

/-- A draft sample blog, `publishedAt` unset, same author. -/
def blogB : Blog :=
  { blogA with
    id := "bbbbbbbbbbbbbbbbbbbbbbbb", title := "Second", slug := "second",
    status := "draft", publishedAt := none }

/-- A draft sample blog owned by a different author. -/
def blogC : Blog :=
  { blogA with
    id := "cccccccccccccccccccccccc", title := "Third", slug := "third",
    author := "u0", status := "draft", publishedAt := none }

def userU1 : User := { id := "u1", role := "editor", postsCount := 7 }

def userU0 : User := { id := "u0", role := "author", postsCount := 0 }

def userU2 : User := { id := "u2", role := "editor", postsCount := 1 }

def store1 : Store := { blogs := [blogA], users := [userU1] }

def store2 : Store := { blogs := [blogA, blogB, blogC], users := [userU1, userU0] }

def store0 : Store := { blogs := [], users := [] }

/-- The document persisted by `createBlog creq1 userU1 "dddddddddddddddddddddddd" 0 store0`. -/
def blogD : Blog :=
  { id := "dddddddddddddddddddddddd", title := "My Trip", slug := "my-trip",
    content := "x", excerpt := "y", category := "Food", tags := [],
    seo := seoNone, status := "draft", publishedAt := none, scheduledAt := none,
    views := 0, likes := 0, shares := 0, comments := 0, readingTime := 1,
    featured := false, author := "u1", createdAt := 0, updatedAt := 0 }

/-- The store after that create. -/
def storeD : Store := { blogs := [blogD], users := [] }

/-- An update request body with every field absent. -/
def emptyUpd : UpdateReq :=
  { title := none, content := none, excerpt := none, category := none, tags := none,
    seo := none, featured := none, status := none, scheduledAt := none }

/-- An update request that only sets the status to `published`. -/
def pubUpd : UpdateReq := { emptyUpd with status := some "published" }

/-- A body of exactly 400 words, one separator being a double space, so the
hook sees 401 space-separated chunks. -/
def content400 : String := String.intercalate " " (List.replicate 399 "a") ++ "  b"

/-- An update request that only replaces the content. -/
def upd400 : UpdateReq := { emptyUpd with content := some content400 }

def creq1 : CreateReq :=
  { title := "My Trip", content := "x", excerpt := "y", category := "Food",
    tags := [], seo := seoNone, status := none, featured := none, scheduledAt := none }

/-- A different title deriving the same slug as `creq1`. -/
def creq2 : CreateReq := { creq1 with title := "My; Trip!" }

/-- An update request whose new title collides with blogA's slug. -/
def updHello : UpdateReq := { emptyUpd with title := some "Hello!" }

/-- An update request with a fresh, non-colliding title. -/
def updNew : UpdateReq := { emptyUpd with title := some "New Post" }

theorem char_le_iff {a b : Char} : a ≤ b ↔ a.toNat ≤ b.toNat := by
  rw [Char.le_def, UInt32.le_def, BitVec.le_def]
  exact Iff.rfl

theorem char_toNat_ofNat_valid {n : Nat} (h : n < 55296) : (Char.ofNat n).toNat = n := by
  rw [Char.ofNat, dif_pos (Or.inl h : Nat.isValidChar n)]
  simp [Char.ofNatAux, Char.toNat, UInt32.toNat]

theorem toLower_not_upper (c : Char) : ¬ ('A' ≤ c.toLower ∧ c.toLower ≤ 'Z') := by
  rw [char_le_iff, char_le_iff]
  have ha : 'A'.toNat = 65 := rfl
  have hz : 'Z'.toNat = 90 := rfl
  rw [ha, hz]
  simp only [Char.toLower]
  split
  · rw [char_toNat_ofNat_valid (by omega)]
    omega
  · omega

theorem mem_collapseWs {x : Char} : ∀ {L : List Char}, x ∈ collapseWs L →
    x = '-' ∨ (x ∈ L ∧ isJsSpace x = false)
  | [], h => by simp [collapseWs] at h
  | [c], h => by
    simp only [collapseWs, List.mem_singleton] at h
    by_cases hs : isJsSpace c
    · rw [if_pos hs] at h; exact Or.inl h
    · rw [if_neg hs] at h; exact Or.inr ⟨h ▸ List.mem_singleton_self c, h ▸ (by simpa using hs)⟩
  | c₁ :: c₂ :: rest, h => by
    simp only [collapseWs] at h
    by_cases hb : isJsSpace c₁ && isJsSpace c₂
    · rw [if_pos hb] at h
      rcases mem_collapseWs h with h' | ⟨hmem, hns⟩
      · exact Or.inl h'
      · exact Or.inr ⟨List.mem_cons_of_mem _ hmem, hns⟩
    · rw [if_neg hb] at h
      rcases List.mem_cons.mp h with h' | h'
      · by_cases hs : isJsSpace c₁
        · rw [if_pos hs] at h'; exact Or.inl h'
        · rw [if_neg hs] at h'
          exact Or.inr ⟨h' ▸ List.mem_cons_self _ _, h' ▸ (by simpa using hs)⟩
      · rcases mem_collapseWs h' with h'' | ⟨hmem, hns⟩
        · exact Or.inl h''
        · exact Or.inr ⟨List.mem_cons_of_mem _ hmem, hns⟩

theorem chain'_take {α : Type} {r : α → α → Prop} :
    ∀ (l : List α) (n : Nat), List.Chain' r l → List.Chain' r (l.take n)
  | [], _, _ => by simp
  | _ :: _, 0, _ => by simp
  | _ :: [], _ + 1, _ => by simp
  | _ :: _ :: _, 1, _ => by simp
  | a :: b :: l, n + 2, h => by
    rw [List.take_succ_cons]
    refine List.chain'_cons.2 ⟨(List.chain'_cons.mp h).1, ?_⟩
    have ih := chain'_take (b :: l) (n + 1) (List.chain'_cons.mp h).2
    rwa [List.take_succ_cons] at ih

theorem collapseWs_headq {c : Char} (l : List Char) (h : isJsSpace c = false) :
    (collapseWs (c :: l)).head? = some c := by
  cases l with
  | nil => simp [collapseWs, h]
  | cons d rest => simp [collapseWs, h]

theorem noAdj_collapseWs : ∀ {L : List Char}, '-' ∉ L → NoAdjHyphens (collapseWs L)
  | [], _ => List.chain'_nil
  | [c], _ => by
    simp only [collapseWs]
    exact List.chain'_singleton _
  | c₁ :: c₂ :: rest, h => by
    have h₁ : c₁ ≠ '-' := by
      intro e
      exact h (by simp [e])
    have h₂ : '-' ∉ c₂ :: rest := fun hm => h (List.mem_cons_of_mem _ hm)
    have hc₂ : c₂ ≠ '-' := by
      intro e
      exact h₂ (by simp [e])
    simp only [collapseWs]
    by_cases hb : (isJsSpace c₁ && isJsSpace c₂) = true
    · rw [if_pos hb]
      exact noAdj_collapseWs h₂
    · rw [if_neg hb]
      by_cases hs : isJsSpace c₁ = true
      · rw [if_pos hs]
        have hsp₂ : isJsSpace c₂ = false := by
          cases hh : isJsSpace c₂
          · rfl
          · exact absurd (by simp [hs, hh]) hb
        refine List.chain'_cons'.2 ⟨?_, noAdj_collapseWs h₂⟩
        intro y hy
        rw [collapseWs_headq rest hsp₂] at hy
        simp only [Option.mem_def, Option.some.injEq] at hy
        subst hy
        exact fun e => hc₂ e.2
      · rw [if_neg hs]
        refine List.chain'_cons'.2 ⟨?_, noAdj_collapseWs h₂⟩
        exact fun y _ e => h₁ e.1

theorem slugify_data_eq (title : String) :
    (slugify title).data = (collapseWs ((title.data.map Char.toLower).filter isSlugKeep)).take 50 :=
  rfl

theorem slugify_data_mem {title : String} {c : Char} (hc : c ∈ (slugify title).data) :
    isSlugOutChar c = true := by
  rw [slugify_data_eq] at hc
  have hc' := List.take_subset 50 _ hc
  rcases mem_collapseWs hc' with h | ⟨hmem, hns⟩
  · simp [isSlugOutChar, h]
  · obtain ⟨hmap, hkeep⟩ := List.mem_filter.mp hmem
    obtain ⟨d, -, rfl⟩ := List.mem_map.mp hmap
    simp only [isSlugKeep, hns, Bool.or_false, Bool.or_eq_true, Bool.and_eq_true,
      decide_eq_true_eq, or_false, false_or] at hkeep
    rcases hkeep with (h | h) | h
    · unfold isSlugOutChar
      rw [decide_eq_true h.1, decide_eq_true h.2]
      simp
    · exact absurd h (toLower_not_upper d)
    · unfold isSlugOutChar
      rw [decide_eq_true h.1, decide_eq_true h.2]
      simp

theorem slugify_length_le (title : String) : (slugify title).length ≤ 50 := by
  have h : (slugify title).length =
      ((collapseWs ((title.data.map Char.toLower).filter isSlugKeep)).take 50).length := rfl
  rw [h, List.length_take]
  omega

theorem slugify_noAdj (title : String) : NoAdjHyphens (slugify title).data := by
  have hnd : '-' ∉ (title.data.map Char.toLower).filter isSlugKeep := by
    intro hm
    exact absurd (List.mem_filter.mp hm).2 (by decide)
  rw [slugify_data_eq]
  exact chain'_take _ 50 (noAdj_collapseWs hnd)

/-- C2: the derived slug is lowercase and over `[a-z0-9-]`, collapses each
whitespace run to a single hyphen (so no adjacent hyphens), and is at most
50 characters — but, contrary to the claim, surrounding whitespace in the
title does produce a leading (or trailing) hyphen: the title `" hello"`
yields the slug `"-hello"`, which starts with a hyphen. -/
theorem c2_slug_counterexample :
    slugify " hello" = "-hello" ∧ (slugify " hello").data.head? = some '-' := by
  decide

/-- C2 (amended): for every title, the derived slug contains only characters
in `[a-z0-9-]`, has length at most 50, and never contains two adjacent
hyphens; leading or trailing whitespace in the title becomes a leading or
trailing hyphen (the derivation does not trim). -/
theorem c2_slug_wellformed (title : String) :
    (∀ c ∈ (slugify title).data, isSlugOutChar c = true) ∧
    (slugify title).length ≤ 50 ∧
    NoAdjHyphens (slugify title).data :=
  ⟨fun _ hc => slugify_data_mem hc, slugify_length_le title, slugify_noAdj title⟩

/-- C2 witness: the amended theorem applied to the concrete title `"hello"`. -/
theorem c2_slug_wellformed_witness : isSlugOutChar 'h' = true :=
  (c2_slug_wellformed "hello").1 'h' (by decide)

theorem updateBlog_ok {r : UpdateReq} {u : User} {id : String} {now : Nat}
    {st st' : Store} {b' : Blog} (h : updateBlog r u id now st = (st', Except.ok b')) :
    ∃ b, findBlogById st id = some b ∧ ownershipDenied b u = false ∧
      slugConflict r b st = false ∧
      b' = preSaveHook (contentChangedB r b) now (applyUpdateFields r b now) ∧
      st' = { st with blogs := saveExisting st.blogs b' } := by
  unfold updateBlog at h
  split at h
  · simp at h
  next b heq =>
    by_cases ho : ownershipDenied b u
    · rw [if_pos ho] at h
      simp at h
    · rw [if_neg ho] at h
      by_cases hs : slugConflict r b st
      · rw [if_pos hs] at h
        simp at h
      · rw [if_neg hs] at h
        simp only [Prod.mk.injEq, Except.ok.injEq] at h
        obtain ⟨h1, h2⟩ := h
        subst h2
        subst h1
        exact ⟨b, heq, Bool.eq_false_iff.mpr ho, Bool.eq_false_iff.mpr hs, rfl, rfl⟩

theorem updateBlog_forbidden {r : UpdateReq} {u : User} {id : String} {now : Nat}
    {st : Store} {b : Blog} (hf : findBlogById st id = some b)
    (ho : ownershipDenied b u = true) :
    updateBlog r u id now st = (st, Except.error Err.forbidden) := by
  unfold updateBlog
  rw [hf]
  dsimp only
  rw [if_pos ho]

theorem updateBlog_dup {r : UpdateReq} {u : User} {id : String} {now : Nat}
    {st : Store} {b : Blog} (hf : findBlogById st id = some b)
    (ho : ownershipDenied b u = false) (hs : slugConflict r b st = true) :
    updateBlog r u id now st = (st, Except.error Err.duplicateSlug) := by
  unfold updateBlog
  rw [hf]
  dsimp only
  rw [if_neg (by simp [ho]), if_pos hs]

theorem deleteBlog_forbidden {u : User} {id : String} {st : Store} {b : Blog}
    (hf : findBlogById st id = some b) (ho : ownershipDenied b u = true) :
    deleteBlog id u st = (st, Except.error Err.forbidden) := by
  unfold deleteBlog
  rw [hf]
  dsimp only
  rw [if_pos ho]

theorem deleteBlog_ok {u : User} {id : String} {st : Store} {b : Blog}
    (hf : findBlogById st id = some b) (ho : ownershipDenied b u = false) :
    deleteBlog id u st =
      ({ blogs := st.blogs.eraseP (fun x => x.id == id),
         users := incPostsCount b.author (-1) st.users }, Except.ok ()) := by
  unfold deleteBlog
  rw [hf]
  dsimp only
  rw [if_neg (by simp [ho])]

theorem createBlog_ok {r : CreateReq} {u : User} {newId : String} {now : Nat}
    {st st' : Store} {b' : Blog} (h : createBlog r u newId now st = (st', Except.ok b')) :
    validCreate r = true ∧
      (st.blogs.any (fun b => b.slug == slugify r.title)) = false ∧
      b' = preSaveHook true now (newBlogDoc r u newId now) ∧
      st' = { blogs := st.blogs ++ [b'], users := incPostsCount u.id 1 st.users } := by
  unfold createBlog at h
  by_cases hv : validCreate r
  · rw [if_neg (by simp [hv])] at h
    by_cases hd : st.blogs.any (fun b => b.slug == slugify r.title)
    · rw [if_pos hd] at h
      simp at h
    · rw [if_neg hd] at h
      simp only [Prod.mk.injEq, Except.ok.injEq] at h
      obtain ⟨h1, h2⟩ := h
      subst h2
      subst h1
      exact ⟨hv, Bool.eq_false_iff.mpr hd, rfl, rfl⟩
  · rw [if_pos (by simp [hv])] at h
    simp at h

theorem createBlog_dup {r : CreateReq} {u : User} {newId : String} {now : Nat}
    {st : Store} (hv : validCreate r = true)
    (hd : (st.blogs.any (fun b => b.slug == slugify r.title)) = true) :
    createBlog r u newId now st = (st, Except.error Err.duplicateSlug) := by
  unfold createBlog
  rw [if_neg (by simp [hv]), if_pos hd]

theorem preSaveHook_slug (c : Bool) (now : Nat) (b : Blog) :
    (preSaveHook c now b).slug = b.slug := by
  unfold preSaveHook
  cases c <;> simp

/-- C8: a single-record update or delete on an existing record by an
authenticated caller who is neither the owning author nor an admin fails
with Forbidden and leaves the store unchanged. -/
theorem c8_mutation_forbidden (st : Store) (u : User) (id : String) (r : UpdateReq)
    (now : Nat) (b : Blog) (hf : findBlogById st id = some b)
    (hauthor : b.author ≠ u.id) (hrole : u.role ≠ "admin") :
    updateBlog r u id now st = (st, Except.error Err.forbidden) ∧
    deleteBlog id u st = (st, Except.error Err.forbidden) := by
  have ho : ownershipDenied b u = true := by
    simp [ownershipDenied, bne_iff_ne, hauthor, hrole]
  exact ⟨updateBlog_forbidden hf ho, deleteBlog_forbidden hf ho⟩

/-- C8 witness: u2 (an editor who does not own blogA) cannot update or
delete blogA. -/
theorem c8_mutation_forbidden_witness :
    updateBlog emptyUpd userU2 "aaaaaaaaaaaaaaaaaaaaaaaa" 7 store1 =
      (store1, Except.error Err.forbidden) ∧
    deleteBlog "aaaaaaaaaaaaaaaaaaaaaaaa" userU2 store1 =
      (store1, Except.error Err.forbidden) :=
  c8_mutation_forbidden store1 userU2 "aaaaaaaaaaaaaaaaaaaaaaaa" emptyUpd 7 blogA
    (by decide) (by decide) (by decide)

/-- C10: fetching an existing record by id or by slug increments exactly its
view counter and refreshes its update timestamp (every other field is kept),
persisting the bumped document; a miss fails with NotFound and changes
nothing. -/
theorem c10_fetch_increments_views (st : Store) (ident : String) (now : Nat) :
    (∀ b, st.blogs.find? (blogMatchesIdent ident) = some b →
      getByIdentifier ident now st =
        ({ st with
            blogs := saveExisting st.blogs { b with views := b.views + 1, updatedAt := now } },
          Except.ok { b with views := b.views + 1, updatedAt := now })) ∧
    (st.blogs.find? (blogMatchesIdent ident) = none →
      getByIdentifier ident now st = (st, Except.error Err.notFound)) := by
  constructor
  · intro b hb
    unfold getByIdentifier
    rw [hb]
    rfl
  · intro hb
    unfold getByIdentifier
    rw [hb]

/-- C10 witness: fetching blogA through its slug bumps views 3 → 4 and
stamps updatedAt with the read time. -/
theorem c10_fetch_increments_views_witness :
    getByIdentifier "hello" 42 store1 =
      ({ store1 with
          blogs := saveExisting store1.blogs { blogA with views := blogA.views + 1, updatedAt := 42 } },
        Except.ok { blogA with views := blogA.views + 1, updatedAt := 42 }) :=
  (c10_fetch_increments_views store1 "hello" 42).1 blogA (by decide)

theorem preSaveHook_eta (c : Bool) (now : Nat) (b : Blog) :
    preSaveHook c now b =
      { b with readingTime := if c then computeReadingTime b.content else b.readingTime,
               updatedAt := now } := by
  cases c <;> rfl

/-- C6: on a successful update, every field absent from the request body
keeps its prior value (absent fields are never nulled or reset), and a
supplied SEO block is shallow-merged into the stored one: keys absent from
the supplied object keep their prior values. -/
theorem c6_partial_update (st st' : Store) (u : User) (r : UpdateReq) (id : String)
    (now : Nat) (b' b : Blog)
    (h : updateBlog r u id now st = (st', Except.ok b'))
    (hf : findBlogById st id = some b) :
    (r.title = none → b'.title = b.title ∧ b'.slug = b.slug) ∧
    (r.content = none → b'.content = b.content ∧ b'.readingTime = b.readingTime) ∧
    (r.excerpt = none → b'.excerpt = b.excerpt) ∧
    (r.category = none → b'.category = b.category) ∧
    (r.tags = none → b'.tags = b.tags) ∧
    (r.featured = none → b'.featured = b.featured) ∧
    (r.status = none → b'.status = b.status ∧ b'.publishedAt = b.publishedAt) ∧
    (r.scheduledAt = none → b'.scheduledAt = b.scheduledAt) ∧
    (r.seo = none → b'.seo = b.seo) ∧
    (∀ s, r.seo = some s → b'.seo = mergeSeo b.seo s ∧
      (s.metaTitle = none → b'.seo.metaTitle = b.seo.metaTitle) ∧
      (s.metaDescription = none → b'.seo.metaDescription = b.seo.metaDescription) ∧
      (s.keywords = none → b'.seo.keywords = b.seo.keywords) ∧
      (s.canonicalUrl = none → b'.seo.canonicalUrl = b.seo.canonicalUrl)) := by
  obtain ⟨b₀, hf₀, -, -, hb', -⟩ := updateBlog_ok h
  rw [hf] at hf₀
  injection hf₀ with hbb
  subst hbb
  subst hb'
  rw [preSaveHook_eta]
  refine ⟨?_, ?_, ?_, ?_, ?_, ?_, ?_, ?_, ?_, ?_⟩
  · intro hn
    exact ⟨by simp [applyUpdateFields, setStr, hn],
      by simp [applyUpdateFields, newSlugFor, titleChangedB, truthy, hn]⟩
  · intro hn
    constructor
    · simp [applyUpdateFields, setStr, hn]
    · simp [applyUpdateFields, contentChangedB, truthy, hn]
  · intro hn
    simp [applyUpdateFields, setStr, hn]
  · intro hn
    simp [applyUpdateFields, setStr, hn]
  · intro hn
    simp [applyUpdateFields, hn]
  · intro hn
    simp [applyUpdateFields, hn]
  · intro hn
    exact ⟨by simp [applyUpdateFields, setStr, hn],
      by simp [applyUpdateFields, truthy, hn]⟩
  · intro hn
    simp [applyUpdateFields, hn]
  · intro hn
    simp [applyUpdateFields, hn]
  · intro s hs
    refine ⟨by simp [applyUpdateFields, hs], ?_, ?_, ?_, ?_⟩
    · intro hn
      simp [applyUpdateFields, hs, mergeSeo, hn]
    · intro hn
      simp [applyUpdateFields, hs, mergeSeo, hn]
    · intro hn
      simp [applyUpdateFields, hs, mergeSeo, hn]
    · intro hn
      simp [applyUpdateFields, hs, mergeSeo, hn]

/-- C6 witness: updating blogA with an all-absent body only refreshes
updatedAt; in particular the title is kept. -/
theorem c6_partial_update_witness :
    ({ blogA with updatedAt := 42 } : Blog).title = blogA.title ∧
    ({ blogA with updatedAt := 42 } : Blog).seo = blogA.seo :=
  ⟨((c6_partial_update store1 ({ store1 with blogs := [{ blogA with updatedAt := 42 }] })
      userU1 emptyUpd "aaaaaaaaaaaaaaaaaaaaaaaa" 42
      { blogA with updatedAt := 42 } blogA (by decide) (by decide)).1 rfl).1,
   (c6_partial_update store1 ({ store1 with blogs := [{ blogA with updatedAt := 42 }] })
      userU1 emptyUpd "aaaaaaaaaaaaaaaaaaaaaaaa" 42
      { blogA with updatedAt := 42 } blogA (by decide) (by decide)).2.2.2.2.2.2.2.2.1 rfl⟩

/-- C1 counterexample: blogA already has `publishedAt = some 5`, yet a bulk
publish at time 10 overwrites it to `some 10` — the bulk `updateMany` sets
`publishedAt: new Date()` unconditionally on every matched record. -/
theorem c1_publishedAt_counterexample :
    blogA.publishedAt = some 5 ∧
    ((bulkAction "publish" ["aaaaaaaaaaaaaaaaaaaaaaaa"] 10 store1).1.blogs.map
      Blog.publishedAt) = [some 10] := by
  decide

/-- C1 (amended): a single-record update preserves an already-set
`publishedAt` through any later transition to published, and sets it to the
operation time on a first transition; but the bulk publish action
unconditionally overwrites `publishedAt` with the operation time on every
matched record, set or not. -/
theorem c1_publishedAt :
    (∀ st st' u r id now b' b t, updateBlog r u id now st = (st', Except.ok b') →
      findBlogById st id = some b → b.publishedAt = some t →
      b'.publishedAt = some t) ∧
    (∀ st st' u r id now b' b, updateBlog r u id now st = (st', Except.ok b') →
      findBlogById st id = some b → b.publishedAt = none →
      r.status = some "published" → b'.publishedAt = some now) ∧
    (∀ st ids now, (bulkAction "publish" ids now st).1.blogs =
      st.blogs.map (fun b => if ids.contains b.id then
        { b with status := "published", publishedAt := some now } else b)) := by
  refine ⟨?_, ?_, ?_⟩
  · intro st st' u r id now b' b t h hf ht
    obtain ⟨b₀, hf₀, -, -, hb', -⟩ := updateBlog_ok h
    rw [hf] at hf₀
    injection hf₀ with hbb
    subst hbb
    subst hb'
    rw [preSaveHook_eta]
    simp [applyUpdateFields, ht]
  · intro st st' u r id now b' b h hf ht hs
    obtain ⟨b₀, hf₀, -, -, hb', -⟩ := updateBlog_ok h
    rw [hf] at hf₀
    injection hf₀ with hbb
    subst hbb
    subst hb'
    rw [preSaveHook_eta]
    simp [applyUpdateFields, ht, hs, truthy]
  · intro st ids now
    unfold bulkAction
    rw [if_neg (by decide), if_pos (by decide)]
    dsimp only
    refine List.map_congr_left ?_
    intro b _
    by_cases hc : b.id ∈ ids
    · simp [hc, applyBulk]
    · simp [hc]

/-- C1 witness: the amended theorem at concrete stores — updating blogA
(already published at 5) keeps 5; updating blogB (unpublished) to published
at time 99 stamps 99; a bulk publish over store1 rewrites every matched
record's `publishedAt`. -/
theorem c1_publishedAt_witness :
    ({ blogA with updatedAt := 99 } : Blog).publishedAt = some 5 ∧
    ({ blogB with status := "published", publishedAt := some 99, updatedAt := 99 } :
        Blog).publishedAt = some 99 ∧
    (bulkAction "publish" ["aaaaaaaaaaaaaaaaaaaaaaaa"] 10 store1).1.blogs =
      store1.blogs.map (fun b => if ["aaaaaaaaaaaaaaaaaaaaaaaa"].contains b.id then
        { b with status := "published", publishedAt := some 10 } else b) :=
  ⟨c1_publishedAt.1 store1 ({ store1 with blogs := [{ blogA with updatedAt := 99 }] })
      userU1 pubUpd "aaaaaaaaaaaaaaaaaaaaaaaa" 99 { blogA with updatedAt := 99 } blogA 5
      (by decide) (by decide) (by decide),
   c1_publishedAt.2.1 store2
      ({ store2 with blogs := [blogA,
        { blogB with status := "published", publishedAt := some 99, updatedAt := 99 }, blogC] })
      userU1 pubUpd "bbbbbbbbbbbbbbbbbbbbbbbb" 99
      { blogB with status := "published", publishedAt := some 99, updatedAt := 99 } blogB
      (by decide) (by decide) (by decide) (by decide),
   c1_publishedAt.2.2 store1 ["aaaaaaaaaaaaaaaaaaaaaaaa"] 10⟩

/-- C4 counterexample: content400 is a body of exactly 400 words, one
separator being a double space.  The claim demands a stored reading time of
ceil(400/200) = 2; the hook's `split(' ')` sees 401 chunks... -/
theorem c4_reading_time_counterexample :
    specWordCount content400 = 400 ∧
    (specWordCount content400 + 199) / 200 = 2 ∧
    (updateBlog upd400 userU1 "aaaaaaaaaaaaaaaaaaaaaaaa" 42 store1).2 =
      Except.ok { blogA with content := content400, readingTime := 3, updatedAt := 42 } := by
  decide

/-- C4 (amended): whenever an update changes the body, the stored reading
time is the ceiling over 200 of the number of space-separated chunks of the
new body (empty chunks from repeated, leading or trailing spaces included);
this equals the ceiling of the word count whenever no chunk is empty, so
bodies of 400 resp. 401 single-space-separated words yield 2 resp. 3
minutes; an update that does not change the body leaves the reading time
unchanged. -/
theorem c4_reading_time :
    (∀ st st' u r id now b' b c, updateBlog r u id now st = (st', Except.ok b') →
      findBlogById st id = some b → r.content = some c → c ≠ "" → c ≠ b.content →
      b'.readingTime = (wordChunks c + 199) / 200) ∧
    (∀ st st' u r id now b' b c, updateBlog r u id now st = (st', Except.ok b') →
      findBlogById st id = some b → r.content = some c → c = b.content →
      b'.readingTime = b.readingTime) ∧
    (∀ s, [] ∉ splitChunks s.data → wordChunks s = specWordCount s) ∧
    computeReadingTime (String.intercalate " " (List.replicate 400 "a")) = 2 ∧
    computeReadingTime (String.intercalate " " (List.replicate 401 "a")) = 3 := by
  refine ⟨?_, ?_, ?_, by decide, by decide⟩
  · intro st st' u r id now b' b c h hf hc hne hdiff
    obtain ⟨b₀, hf₀, -, -, hb', -⟩ := updateBlog_ok h
    rw [hf] at hf₀
    injection hf₀ with hbb
    subst hbb
    subst hb'
    rw [preSaveHook_eta]
    have hcc : contentChangedB r b = true := by
      simp [contentChangedB, truthy, hc, hne, hdiff]
    have hcontent : (applyUpdateFields r b now).content = c := by
      simp [applyUpdateFields, setStr, hc, hne]
    simp [hcc, hcontent, computeReadingTime]
  · intro st st' u r id now b' b c h hf hc heq
    obtain ⟨b₀, hf₀, -, -, hb', -⟩ := updateBlog_ok h
    rw [hf] at hf₀
    injection hf₀ with hbb
    subst hbb
    subst hb'
    rw [preSaveHook_eta]
    have hcc : contentChangedB r b = false := by
      simp [contentChangedB, hc, heq]
    simp [hcc, applyUpdateFields]
  · intro s hs
    unfold wordChunks specWordCount
    rw [List.filter_eq_self.mpr]
    intro a ha
    simp only [ne_eq, decide_eq_true_eq]
    exact fun e => hs (e ▸ ha)

/-- C4 witness: the amended theorem at a concrete update storing the
two-word body, and at the 400-single-space-word body. -/
theorem c4_reading_time_witness :
    ({ blogA with content := "hello world", updatedAt := 9 } : Blog).readingTime =
      (wordChunks "hello world" + 199) / 200 ∧
    computeReadingTime (String.intercalate " " (List.replicate 400 "a")) = 2 :=
  ⟨c4_reading_time.1 store1
      ({ store1 with blogs := [{ blogA with content := "hello world", updatedAt := 9 }] })
      userU1 ({ emptyUpd with content := some "hello world" }) "aaaaaaaaaaaaaaaaaaaaaaaa" 9
      ({ blogA with content := "hello world", updatedAt := 9 }) blogA "hello world"
      (by decide) (by decide) rfl (by decide) (by decide),
   c4_reading_time.2.2.2.1⟩

/-- C3: a create whose title derives a slug already persisted fails with
DuplicateSlug and leaves the store unchanged; a successful create persists
exactly the derived slug (no suffixing); an update whose changed title
derives a slug held by a different record fails with DuplicateSlug and
leaves the store unchanged; a successful title-changing update stores
exactly the derived slug; and the update-time uniqueness check excludes the
record being updated (a collision only with itself does not fail). -/
theorem c3_duplicate_slug :
    (∀ st st' u₁ u₂ r₁ r₂ id₁ id₂ now₁ now₂ b₁,
      createBlog r₁ u₁ id₁ now₁ st = (st', Except.ok b₁) →
      validCreate r₂ = true → slugify r₂.title = slugify r₁.title →
      createBlog r₂ u₂ id₂ now₂ st' = (st', Except.error Err.duplicateSlug)) ∧
    (∀ st st' u r id now b', createBlog r u id now st = (st', Except.ok b') →
      b'.slug = slugify r.title) ∧
    (∀ st u r id now b, findBlogById st id = some b → ownershipDenied b u = false →
      titleChangedB r b = true →
      st.blogs.any (fun o => o.slug == newSlugFor r b && o.id != b.id) = true →
      updateBlog r u id now st = (st, Except.error Err.duplicateSlug)) ∧
    (∀ st st' u r id now b b', updateBlog r u id now st = (st', Except.ok b') →
      findBlogById st id = some b → titleChangedB r b = true →
      b'.slug = slugify (r.title.getD "")) ∧
    (∀ st u r id now b, findBlogById st id = some b → ownershipDenied b u = false →
      st.blogs.any (fun o => o.slug == newSlugFor r b && o.id != b.id) = false →
      (updateBlog r u id now st).2 =
        Except.ok (preSaveHook (contentChangedB r b) now (applyUpdateFields r b now))) := by
  refine ⟨?_, ?_, ?_, ?_, ?_⟩
  · intro st st' u₁ u₂ r₁ r₂ id₁ id₂ now₁ now₂ b₁ h₁ hv₂ hslug
    obtain ⟨-, -, hb₁, hst'⟩ := createBlog_ok h₁
    apply createBlog_dup hv₂
    subst hst'
    rw [List.any_eq_true]
    refine ⟨b₁, by simp, ?_⟩
    rw [hslug, hb₁, preSaveHook_slug]
    simp [newBlogDoc]
  · intro st st' u r id now b' h
    obtain ⟨-, -, hb', -⟩ := createBlog_ok h
    rw [hb', preSaveHook_slug]
    simp [newBlogDoc]
  · intro st u r id now b hf ho htc hany
    exact updateBlog_dup hf ho (by simp [slugConflict, htc, hany])
  · intro st st' u r id now b b' h hf htc
    obtain ⟨b₀, hf₀, -, -, hb', -⟩ := updateBlog_ok h
    rw [hf] at hf₀
    injection hf₀ with hbb
    subst hbb
    subst hb'
    rw [preSaveHook_slug]
    simp [applyUpdateFields, newSlugFor, htc]
  · intro st u r id now b hf ho hany
    unfold updateBlog
    rw [hf]
    dsimp only
    rw [if_neg (by simp [ho]), if_neg (by simp [slugConflict, hany])]

/-- C3 witness: the theorem at concrete stores — a second create whose title
derives `my-trip` again fails; blogD carries exactly the derived slug; an
update of blogC to the colliding title `Hello!` fails; an update of blogB to
`New Post` stores exactly `new-post`; the self-exclusion path succeeds. -/
theorem c3_duplicate_slug_witness :
    createBlog creq2 userU2 "eeeeeeeeeeeeeeeeeeeeeeee" 1 storeD =
      (storeD, Except.error Err.duplicateSlug) ∧
    blogD.slug = slugify creq1.title ∧
    updateBlog updHello userU0 "cccccccccccccccccccccccc" 3 store2 =
      (store2, Except.error Err.duplicateSlug) ∧
    ({ blogB with title := "New Post", slug := "new-post", updatedAt := 4 } : Blog).slug =
      slugify (updNew.title.getD "") ∧
    (updateBlog updNew userU1 "bbbbbbbbbbbbbbbbbbbbbbbb" 4 store2).2 =
      Except.ok (preSaveHook (contentChangedB updNew blogB) 4 (applyUpdateFields updNew blogB 4)) :=
  ⟨c3_duplicate_slug.1 store0 storeD userU1 userU2 creq1 creq2 "dddddddddddddddddddddddd"
      "eeeeeeeeeeeeeeeeeeeeeeee" 0 1 blogD (by decide) (by decide) (by decide),
   c3_duplicate_slug.2.1 store0 storeD userU1 creq1 "dddddddddddddddddddddddd" 0 blogD
      (by decide),
   c3_duplicate_slug.2.2.1 store2 userU0 updHello "cccccccccccccccccccccccc" 3 blogC
      (by decide) (by decide) (by decide) (by decide),
   c3_duplicate_slug.2.2.2.1 store2
      ({ store2 with blogs := [blogA,
          { blogB with title := "New Post", slug := "new-post", updatedAt := 4 }, blogC] })
      userU1 updNew "bbbbbbbbbbbbbbbbbbbbbbbb" 4 blogB
      ({ blogB with title := "New Post", slug := "new-post", updatedAt := 4 })
      (by decide) (by decide) (by decide),
   c3_duplicate_slug.2.2.2.2 store2 userU1 updNew "bbbbbbbbbbbbbbbbbbbbbbbb" 4 blogB
      (by decide) (by decide) (by decide)⟩

theorem find?_updateFirstUser (uid : String) (f : User → User)
    (hid : ∀ u, (f u).id = u.id) :
    ∀ (users : List User) (v : User),
      users.find? (fun x => x.id == uid) = some v →
      (updateFirstUser uid f users).find? (fun x => x.id == uid) = some (f v)
  | [], v, h => by simp at h
  | u :: rest, v, h => by
    cases hu : (u.id == uid) with
    | true =>
      simp only [List.find?_cons, hu] at h
      injection h with h
      subst h
      unfold updateFirstUser
      rw [if_pos hu]
      simp only [List.find?_cons, hid, hu]
    | false =>
      simp only [List.find?_cons, hu] at h
      unfold updateFirstUser
      rw [if_neg (by simp [hu])]
      simp only [List.find?_cons, hu]
      exact find?_updateFirstUser uid f hid rest v h

/-- C5 counterexample: a bulk delete removes blogA but leaves its author's
post counter untouched at 7 — the bulk route never updates the users
collection. -/
theorem c5_bulk_delete_counterexample :
    (bulkAction "delete" ["aaaaaaaaaaaaaaaaaaaaaaaa"] 0 store1).1.blogs = [] ∧
    (bulkAction "delete" ["aaaaaaaaaaaaaaaaaaaaaaaa"] 0 store1).2 = Except.ok (some 1) ∧
    (bulkAction "delete" ["aaaaaaaaaaaaaaaaaaaaaaaa"] 0 store1).1.users = [userU1] ∧
    userU1.postsCount = 7 := by
  decide

/-- C5 (amended): a single-record delete decrements the owning author's post
counter by exactly 1 with no floor at zero (the counter may go negative);
the bulk delete action removes the matched records but leaves every user's
post counter unchanged. -/
theorem c5_delete_post_counter :
    (∀ st u id b v, findBlogById st id = some b → ownershipDenied b u = false →
      st.users.find? (fun x => x.id == b.author) = some v →
      ((deleteBlog id u st).1.users.find? (fun x => x.id == b.author) =
        some { v with postsCount := v.postsCount - 1 }) ∧
      (deleteBlog id u st).2 = Except.ok ()) ∧
    (∀ ids now st, (bulkAction "delete" ids now st).1.users = st.users) := by
  constructor
  · intro st u id b v hf ho hv
    rw [deleteBlog_ok hf ho]
    refine ⟨?_, rfl⟩
    have h := find?_updateFirstUser b.author
      (fun x => { x with postsCount := x.postsCount + (-1) }) (fun _ => rfl) st.users v hv
    simpa [incPostsCount, Int.sub_eq_add_neg] using h
  · intro ids now st
    simp [bulkAction]

/-- C5 witness: the owner u0 (counter 0) deletes their blogC; the counter
goes negative to -1; a concrete bulk delete leaves the users untouched. -/
theorem c5_delete_post_counter_witness :
    ((deleteBlog "cccccccccccccccccccccccc" userU0 store2).1.users.find?
        (fun x => x.id == blogC.author) = some { userU0 with postsCount := -1 }) ∧
    (deleteBlog "cccccccccccccccccccccccc" userU0 store2).2 = Except.ok () ∧
    (bulkAction "delete" [] 0 store1).1.users = store1.users :=
  ⟨(c5_delete_post_counter.1 store2 userU0 "cccccccccccccccccccccccc" blogC userU0
      (by decide) (by decide) (by decide)).1,
   (c5_delete_post_counter.1 store2 userU0 "cccccccccccccccccccccccc" blogC userU0
      (by decide) (by decide) (by decide)).2,
   c5_delete_post_counter.2 [] 0 store1⟩

/-- C7 counterexample: a recognized bulk publish that matches nothing
affects 0 records, yet the response carries no count at all — `0` is falsy,
so `result.modifiedCount || result.deletedCount` evaluates to `undefined`
(here `none`) instead of the affected count `some 0`. -/
theorem c7_zero_count_counterexample :
    (bulkAction "publish" [] 0 store1).2 = Except.ok none ∧
    store1.blogs.countP (fun b => ([] : List String).contains b.id) = 0 := by
  decide

/-- C7 (amended): an unrecognized action fails with InvalidAction and
mutates nothing; a bulk delete responds with the deleted count (even 0); a
recognized update action responds with the count of actually-modified
matched records when that count is nonzero, and with no count at all
(undefined) when it is zero. -/
theorem c7_bulk_dispatch :
    (∀ action ids now st, action ∉ bulkActions →
      bulkAction action ids now st = (st, Except.error Err.invalidAction)) ∧
    (∀ ids now st, (bulkAction "delete" ids now st).2 =
      Except.ok (some (st.blogs.countP (fun b => ids.contains b.id)))) ∧
    (∀ action ids now st, action ∈ ["publish", "draft", "feature", "unfeature"] →
      (bulkAction action ids now st).2 =
        Except.ok (jsOrCount (some (st.blogs.countP
          (fun b => ids.contains b.id && bulkUpdateChanges action now b))) none)) ∧
    jsOrCount (some 0) none = none ∧
    (∀ n, n ≠ 0 → jsOrCount (some n) none = some n) := by
  refine ⟨?_, ?_, ?_, rfl, ?_⟩
  · intro action ids now st hna
    have h₁ : (action == "delete") = false := by
      cases he : (action == "delete")
      · rfl
      · exact absurd (by simp at he; rw [he]; decide) hna
    have h₂ : bulkActions.contains action = false := by
      cases hc : bulkActions.contains action
      · rfl
      · exact absurd (by simpa using hc) hna
    unfold bulkAction
    rw [if_neg (by rw [h₁]; exact Bool.false_ne_true), if_neg (by rw [h₂]; exact Bool.false_ne_true)]
  · intro ids now st
    unfold bulkAction
    rw [if_pos (by decide)]
    rfl
  · intro action ids now st hmem
    simp only [List.mem_cons, List.not_mem_nil, or_false] at hmem
    have h₁ : (action == "delete") = false := by
      rcases hmem with h | h | h | h <;> subst h <;> decide
    have h₂ : bulkActions.contains action = true := by
      rcases hmem with h | h | h | h <;> subst h <;> decide
    unfold bulkAction
    rw [if_neg (by rw [h₁]; exact Bool.false_ne_true), if_pos h₂]
  · intro n hn
    simp [jsOrCount, hn]

/-- C7 witness: the amended theorem at concrete inputs — an unknown action
tag fails; a bulk delete of blogA reports 1; a bulk draft over store1
modifies blogA (published → draft) and reports 1. -/
theorem c7_bulk_dispatch_witness :
    bulkAction "frobnicate" [] 0 store1 = (store1, Except.error Err.invalidAction) ∧
    (bulkAction "delete" ["aaaaaaaaaaaaaaaaaaaaaaaa"] 0 store1).2 =
      Except.ok (some (store1.blogs.countP
        (fun b => ["aaaaaaaaaaaaaaaaaaaaaaaa"].contains b.id))) ∧
    (bulkAction "draft" ["aaaaaaaaaaaaaaaaaaaaaaaa"] 0 store1).2 =
      Except.ok (jsOrCount (some (store1.blogs.countP
        (fun b => ["aaaaaaaaaaaaaaaaaaaaaaaa"].contains b.id &&
          bulkUpdateChanges "draft" 0 b))) none) ∧
    jsOrCount (some 1) none = some 1 :=
  ⟨c7_bulk_dispatch.1 "frobnicate" [] 0 store1 (by decide),
   c7_bulk_dispatch.2.1 ["aaaaaaaaaaaaaaaaaaaaaaaa"] 0 store1,
   c7_bulk_dispatch.2.2.1 "draft" ["aaaaaaaaaaaaaaaaaaaaaaaa"] 0 store1 (by decide),
   c7_bulk_dispatch.2.2.2.2 1 (by decide)⟩

theorem length_filter_filter {α : Type} (p q : α → Bool) (l : List α) :
    ((l.filter p).filter q).length = l.countP (fun a => p a && q a) := by
  induction l with
  | nil => rfl
  | cons a t ih =>
    rw [List.filter_cons]
    by_cases hp : p a = true
    · rw [if_pos hp, List.filter_cons]
      by_cases hq : q a = true
      · rw [if_pos hq, List.length_cons, ih, List.countP_cons]
        simp [hp, hq]
      · rw [if_neg hq, ih, List.countP_cons]
        simp [hp, hq]
    · rw [if_neg hp, ih, List.countP_cons]
      simp [hp]

/-- C9: the dashboard per-day creation trend has pairwise-ascending calendar
keys, no duplicate day bucket, each bucket counts exactly the records
created on that calendar day within the trailing 30 days (so at least one),
and a day key appears iff some record in the window was created on it —
records older than the window contribute to no bucket. -/
theorem c9_dashboard_trend (blogs : List Blog) (now : Nat) :
    List.Sorted (fun x y => dayLE x.1 y.1) (monthlyTrend blogs now) ∧
    ((monthlyTrend blogs now).map Prod.fst).Nodup ∧
    (∀ k c, (k, c) ∈ monthlyTrend blogs now →
      c = blogs.countP (fun b => decide (trendCutoff now ≤ b.createdAt) &&
            (dayKeyOf b.createdAt == k)) ∧ 0 < c) ∧
    (∀ k, (k ∈ (monthlyTrend blogs now).map Prod.fst) ↔
      ∃ b ∈ blogs, trendCutoff now ≤ b.createdAt ∧ dayKeyOf b.createdAt = k) := by
  have hperm : List.Perm (monthlyTrend blogs now) (trendBuckets blogs now) :=
    List.perm_insertionSort _ _
  have hmapfst : (trendBuckets blogs now).map Prod.fst = trendKeys blogs now := by
    unfold trendBuckets
    rw [List.map_map]
    have hcomp : (Prod.fst ∘ fun k => (k,
        ((trendWindow blogs now).filter (fun b => dayKeyOf b.createdAt == k)).length)) =
        @id (Nat × Nat × Nat) := by
      funext k
      rfl
    rw [hcomp, List.map_id]
  refine ⟨?_, ?_, ?_, ?_⟩
  · haveI : IsTotal ((Nat × Nat × Nat) × Nat) (fun x y => dayLE x.1 y.1) := by
      constructor
      intro a b
      unfold dayLE
      omega
    haveI : IsTrans ((Nat × Nat × Nat) × Nat) (fun x y => dayLE x.1 y.1) := by
      constructor
      intro a b c hab hbc
      unfold dayLE at hab hbc ⊢
      omega
    exact List.sorted_insertionSort _ _
  · exact (hperm.map Prod.fst).nodup_iff.mpr
      (by rw [hmapfst]; exact List.nodup_dedup _)
  · intro k c hkc
    have hkc' : (k, c) ∈ trendBuckets blogs now := hperm.mem_iff.mp hkc
    unfold trendBuckets at hkc'
    obtain ⟨k', hk', heq⟩ := List.mem_map.mp hkc'
    injection heq with h₁ h₂
    subst h₁
    subst h₂
    constructor
    · unfold trendWindow
      exact length_filter_filter _ _ blogs
    · unfold trendKeys at hk'
      rw [List.mem_dedup] at hk'
      obtain ⟨b, hbW, hbk⟩ := List.mem_map.mp hk'
      have hmem : b ∈ (trendWindow blogs now).filter
          (fun x => dayKeyOf x.createdAt == k') := by
        rw [List.mem_filter]
        exact ⟨hbW, by simp [hbk]⟩
      exact List.length_pos.mpr (List.ne_nil_of_mem hmem)
  · intro k
    constructor
    · intro hk
      have hk' : k ∈ (trendBuckets blogs now).map Prod.fst :=
        ((hperm.map Prod.fst).mem_iff).mp hk
      rw [hmapfst] at hk'
      unfold trendKeys at hk'
      rw [List.mem_dedup] at hk'
      obtain ⟨b, hbW, hbk⟩ := List.mem_map.mp hk'
      unfold trendWindow at hbW
      obtain ⟨hbmem, hbcond⟩ := List.mem_filter.mp hbW
      exact ⟨b, hbmem, by simpa using hbcond, hbk⟩
    · rintro ⟨b, hb, hcut, hkey⟩
      apply ((hperm.map Prod.fst).mem_iff).mpr
      rw [hmapfst]
      unfold trendKeys
      rw [List.mem_dedup]
      apply List.mem_map.mpr
      refine ⟨b, ?_, hkey⟩
      unfold trendWindow
      rw [List.mem_filter]
      exact ⟨hb, by simpa using hcut⟩

/-- C9 witness: the trend over a store whose single record was created at the
epoch has the one bucket (1970, 1, 1) with count 1. -/
theorem c9_dashboard_trend_witness :
    1 = [blogA].countP (fun b => decide (trendCutoff 0 ≤ b.createdAt) &&
          (dayKeyOf b.createdAt == ((1970, 1, 1) : Nat × Nat × Nat))) ∧
    0 < 1 :=
  (c9_dashboard_trend [blogA] 0).2.2.1 (1970, 1, 1) 1 (by decide)

end TravelBlog
